import Mathlib

/-!
Shallow embedding of the stream playback supervisor (`src/player/StreamPlayer.ts`)
of the Lofi-Radio-in-terminal repository, together with proofs settling the
specification claims about it.

The supervisor is an event-driven object: `play` spawns an external `ffplay`
process, installs stderr/error/exit handlers and a 1000 ms grace timer;
`handleStreamError` drives the reconnect machinery; `stop` detaches handlers and
tears the process down; `setVolume` validates and stores the volume and
schedules an asynchronous restart while playing.

We embed it as a state record `SupState` plus one total Lean function per
handler / operation body.  Each function is a line-by-line translation of the
corresponding TypeScript; timers and asynchronous callbacks become explicit
steps (a timer that is armed is recorded in the state, and a separate step
function models its firing).  Emitted events are accumulated in a trace list.
The settlement status of the most recent `play` promise is tracked in
`playResult` (a JS promise settles at most once, hence the `Option`).
-/

namespace StreamPlayer

/-- A station record (`src/types/index.ts`, interface `Station`). -/
structure Station where
  id : String
  name : String
  url : String
  genre : String
  description : String
  quality : String
deriving DecidableEq, Repr

/-- Error codes used by `StreamError` values in `StreamPlayer.ts`
(`STREAM_ERROR`, `PROCESS_ERROR`, `UNEXPECTED_EXIT`, `RECONNECT_FAILED`). -/
inductive ErrCode where
  | STREAM_ERROR
  | PROCESS_ERROR
  | UNEXPECTED_EXIT
  | RECONNECT_FAILED
deriving DecidableEq, Repr

/-- A `StreamError` record (`src/types/index.ts`). -/
structure StreamErrorRec where
  code : ErrCode
  message : String
  station : Option Station
deriving DecidableEq, Repr

/-- Events emitted through the `EventEmitter` interface of the supervisor:
`playing`, `stopped`, `error`, `reconnecting`, `connection_lost`. -/
inductive Event where
  | playing (station : Station)
  | stopped
  | error (e : StreamErrorRec)
  | reconnecting (attempt : Nat)
  | connectionLost (e : StreamErrorRec)
deriving DecidableEq, Repr

/-- How the promise returned by `play` settled (`resolve()` at the grace
timeout, or `reject(new Error('ffplay not found...'))` on an ENOENT spawn
error).  A pending promise is `none` in `SupState.playResult`. -/
inductive PlayOutcome where
  | resolved
  | rejectedNoBinary
deriving DecidableEq, Repr

/-- Full supervisor state.  The first six fields mirror `this.state`
(`PlayerState`) and `this.reconnectAttempts`; the remaining fields make the
implicit event wiring explicit:

* `detached` — `removeAllListeners()` has been called on the current process
  (done by `stop`), so the handlers installed by `play` no longer fire;
* `graceArmed` — the 1000 ms confirmation `setTimeout` of the latest `play`
  is pending (it captures the station to emit with `playing`);
* `reconnectTimer` — the 3000 ms reconnect `setTimeout` scheduled by
  `handleStreamError` is pending (capturing `error.station`);
* `volumeRestart` — the detached `stop().then(() => play(station, volume))`
  scheduled by `setVolume` while playing is pending;
* `playResult` — settlement of the promise of the most recent `play` call;
* `events` — chronological trace of emitted events;
* `spawnArgs` — argument vector passed to the most recent `spawn('ffplay', …)`;
* `nextPid`, `now` — fresh process handles and an abstract clock for
  `new Date()`. -/
structure SupState where
  isPlaying : Bool
  currentStation : Option Station
  volume : Int
  startTime : Option Nat
  process : Option Nat
  reconnectAttempts : Nat
  detached : Bool
  graceArmed : Option Station
  reconnectTimer : Option Station
  volumeRestart : Option (Station × Int)
  playResult : Option PlayOutcome
  events : List Event
  spawnArgs : Option (List String)
  nextPid : Nat
  now : Nat
deriving DecidableEq, Repr

/-- `this.maxReconnectAttempts = 5`. -/
def maxReconnectAttempts : Nat := 5

/-- `this.reconnectDelay = 3000` (milliseconds; delays are not otherwise
represented — timer firings are explicit steps). -/
def reconnectDelayMs : Nat := 3000

/-- The 1000 ms confirmation grace period of `play`. -/
def gracePeriodMs : Nat := 1000

/-- The constructor: `{ isPlaying: false, currentStation: null, volume: 70,
startTime: null, process: null }`, `reconnectAttempts = 0`. -/
def initState : SupState :=
  { isPlaying := false
    currentStation := none
    volume := 70
    startTime := none
    process := none
    reconnectAttempts := 0
    detached := false
    graceArmed := none
    reconnectTimer := none
    volumeRestart := none
    playResult := none
    events := []
    spawnArgs := none
    nextPid := 0
    now := 0 }

/-- `this.emit(event)`: append the event to the observable trace. -/
def emit (s : SupState) (e : Event) : SupState :=
  { s with events := s.events ++ [e] }

/-- JS truthiness defaulting `volume || this.state.volume` (line 28): an
omitted argument is `undefined` (falsy) and `0` is also falsy, so both fall
back to the stored volume. -/
def jsOrVolume (v : Option Int) (stored : Int) : Int :=
  match v with
  | none => stored
  | some x => if x = 0 then stored else x

/-- `pat` is an initial segment of `l` (character lists). -/
def leadsWith : List Char → List Char → Bool
  | _, [] => true
  | [], _ :: _ => false
  | a :: as, b :: bs => a == b && leadsWith as bs

/-- `pat` occurs as a contiguous sublist of `l`. -/
def hasSub : List Char → List Char → Bool
  | [], pat => pat.isEmpty
  | a :: as, pat => leadsWith (a :: as) pat || hasSub as pat

/-- JS `String.prototype.includes` over our character model. -/
def occursIn (pat s : String) : Bool :=
  hasSub s.toList pat.toList

/-- The stderr fatal-pattern heuristic of lines 54:
`error.includes('Invalid data') || error.includes('Connection refused')`. -/
def fatalStderr (msg : String) : Bool :=
  occursIn "Invalid data" msg || occursIn "Connection refused" msg

/-- Two-digit zero padding of a remainder `< 100`. -/
def pad2 (r : Nat) : String :=
  if r < 10 then "0" ++ toString r else toString r

/-- `(v / 100).toFixed(2)` for an integer volume `v` (line 33): the linear
gain factor at two-decimal precision. -/
def toFixed2 (v : Int) : String :=
  (if v < 0 then "-" else "") ++ toString (v.natAbs / 100) ++ "." ++ pad2 (v.natAbs % 100)

/-- The `ffplay` argument vector of lines 35–41:
`['-nodisp', '-loglevel', 'error', '-af', 'volume=' + volumeArg, '-vn', url]`. -/
def ffplayArgs (v : Int) (station : Station) : List String :=
  ["-nodisp", "-loglevel", "error", "-af", "volume=" ++ toFixed2 v, "-vn", station.url]

/-- Lines 27–50 of `play` (after the optional `stop`): record station, volume
and start time, spawn `ffplay`, mark playing, and — crucially — reset
`reconnectAttempts` to 0 (line 50).  Installing the handlers and the 1000 ms
grace timer is reflected by `detached := false` and `graceArmed`; the promise
returned by this `play` call starts out pending (`playResult := none`). -/
def playSpawn (s : SupState) (station : Station) (volume : Option Int) : SupState :=
  let vol := jsOrVolume volume s.volume
  { s with
    currentStation := some station
    volume := vol
    startTime := some s.now
    spawnArgs := some (ffplayArgs vol station)
    process := some s.nextPid
    nextPid := s.nextPid + 1
    isPlaying := true
    reconnectAttempts := 0
    detached := false
    graceArmed := some station
    playResult := none
    now := s.now + 1 }

/-- Lines 109–111 and 114 of `stop`: clear `isPlaying`, `currentStation`,
`startTime` immediately and detach all listeners from the process.  (The
`SIGTERM`/2000 ms `SIGKILL` escalation affects only the real OS process.) -/
def stopRequest (s : SupState) : SupState :=
  if s.process.isSome then
    { s with
      isPlaying := false
      currentStation := none
      startTime := none
      detached := true }
  else s

/-- The exit handler installed by `stop` (lines 116–120): once the process
exits, clear the handle and emit `stopped`. -/
def stopExitStep (s : SupState) : SupState :=
  if s.process.isSome && s.detached then
    emit { s with process := none } Event.stopped
  else s

/-- An awaited `stop()` run to completion: `if (!this.state.process) return;`
(line 103) — a no-op without a process — otherwise `stopRequest` followed by
the process exit confirming termination. -/
def stopEffects (s : SupState) : SupState :=
  stopExitStep (stopRequest s)

/-- `handleStreamError` (lines 176–200): emit `error`; while attempts remain
and the error carries a station, increment the counter, emit `reconnecting`
with the new count and schedule the 3000 ms reconnect timer; otherwise emit
`connection_lost` and perform a full `stop`. -/
def handleStreamError (s : SupState) (err : StreamErrorRec) : SupState :=
  let s1 := emit s (Event.error err)
  if s1.reconnectAttempts < maxReconnectAttempts && err.station.isSome then
    let s2 := { s1 with reconnectAttempts := s1.reconnectAttempts + 1 }
    let s3 := emit s2 (Event.reconnecting s2.reconnectAttempts)
    { s3 with reconnectTimer := err.station }
  else
    stopEffects (emit s1 (Event.connectionLost err))

/-- The whole of `play` (lines 22–50): `if (this.state.isPlaying) await
this.stop();` then the spawn portion. -/
def play (s : SupState) (station : Station) (volume : Option Int) : SupState :=
  playSpawn (if s.isPlaying then stopEffects s else s) station volume

/-- The stderr `data` handler (lines 52–61), firing only while the handlers of
the current process are attached: on a fatal pattern match, call
`handleStreamError` with a `STREAM_ERROR` (note: `isPlaying` is NOT cleared
here).  `station` is the closure-captured station of the `play` call that
installed the handler. -/
def stderrData (s : SupState) (station : Station) (msg : String) : SupState :=
  if s.process.isSome && !s.detached then
    if fatalStderr msg then
      handleStreamError s { code := ErrCode.STREAM_ERROR, message := msg, station := some station }
    else s
  else s

/-- The process `error` handler, ENOENT case (lines 63–66): clear `isPlaying`
and reject the pending `play` promise with the distinct binary-not-found
error (a promise settles at most once, hence the `Option.orElse`). -/
def procErrorENOENT (s : SupState) : SupState :=
  if s.process.isSome && !s.detached then
    let s1 := { s with isPlaying := false }
    { s1 with playResult := s1.playResult.orElse fun _ => some PlayOutcome.rejectedNoBinary }
  else s

/-- The process `error` handler, non-ENOENT case (lines 63–64, 67–73): clear
`isPlaying`, then `handleStreamError` with a `PROCESS_ERROR`.  The pending
`play` promise is neither resolved nor rejected on this path. -/
def procErrorOther (s : SupState) (station : Station) (msg : String) : SupState :=
  if s.process.isSome && !s.detached then
    handleStreamError { s with isPlaying := false }
      { code := ErrCode.PROCESS_ERROR, message := msg, station := some station }
  else s

/-- The process `exit` handler installed by `play` (lines 76–86): if still
marked playing and the exit code is non-zero (or null), report an
`UNEXPECTED_EXIT` through `handleStreamError`; then clear `isPlaying` and the
process handle. -/
def procExitStep (s : SupState) (station : Station) (code : Option Int) : SupState :=
  if s.process.isSome && !s.detached then
    let s1 :=
      if s.isPlaying && code != some 0 then
        handleStreamError s
          { code := ErrCode.UNEXPECTED_EXIT
            message := "Process exited with code " ++ toString (repr code)
            station := some station }
      else s
    { s1 with isPlaying := false, process := none }
  else s

/-- The 1000 ms grace `setTimeout` of `play` firing (lines 88–93): if still
marked playing, emit `playing(station)` and resolve the `play` promise. -/
def graceFire (s : SupState) : SupState :=
  match s.graceArmed with
  | none => s
  | some station =>
    let s1 := { s with graceArmed := none }
    if s1.isPlaying then
      let s2 := emit s1 (Event.playing station)
      { s2 with playResult := s2.playResult.orElse fun _ => some PlayOutcome.resolved }
    else s1

/-- The reconnect `setTimeout` of `handleStreamError` firing (lines 183–195):
`await this.play(error.station, this.state.volume)`. -/
def reconnectFire (s : SupState) : SupState :=
  match s.reconnectTimer with
  | none => s
  | some station => play { s with reconnectTimer := none } station (some s.volume)

/-- The `catch` around the reconnect attempt (lines 187–193): when the awaited
`play` rejects, re-enter `handleStreamError` with a `RECONNECT_FAILED` error
carrying the same station. -/
def reconnectCatch (s : SupState) (station : Station) : SupState :=
  handleStreamError s
    { code := ErrCode.RECONNECT_FAILED
      message := "Reconnection attempt " ++ toString s.reconnectAttempts ++ " failed"
      station := some station }

/-- The validation error thrown by `setVolume` (line 139). -/
inductive VolError where
  | outOfRange
deriving DecidableEq, Repr

/-- `setVolume` (lines 137–150): throw synchronously on a volume outside
[0,100] (before any mutation), otherwise store the volume and — while playing
with a current station — schedule the detached `stop().then(() =>
play(station, volume))` restart.  The thrown error is returned in the first
component; the state passes through untouched in that case. -/
def setVolume (s : SupState) (v : Int) : Option VolError × SupState :=
  if v < 0 ∨ v > 100 then (some VolError.outOfRange, s)
  else
    let s1 := { s with volume := v }
    if s1.isPlaying && s1.currentStation.isSome then
      (none, { s1 with volumeRestart := s1.currentStation.map fun st => (st, v) })
    else (none, s1)

/-- The detached restart scheduled by `setVolume` firing: `stop()` then
`play(station, volume)` with the captured arguments — `play` itself performs
the stop of any active process first. -/
def restartFire (s : SupState) : SupState :=
  match s.volumeRestart with
  | none => s
  | some (station, v) => play { s with volumeRestart := none } station (some v)

/-- `getState()` (lines 152–154) returns `{ ...this.state }`; the players
view of it as a value (aliasing is studied separately below). -/
def getStateView (s : SupState) : Bool × Option Station × Int × Option Nat × Option Nat :=
  (s.isPlaying, s.currentStation, s.volume, s.startTime, s.process)

end StreamPlayer

namespace StreamPlayer

/-- A concrete station used for counterexamples and witnesses. -/
def stA : Station :=
  { id := "lofi"
    name := "Lofi Hip Hop"
    url := "https://stream.example/lofi"
    genre := "Lofi"
    description := "beats to relax to"
    quality := "128kbps" }

@[simp] lemma emit_volume (s : SupState) (e : Event) : (emit s e).volume = s.volume := rfl

@[simp] lemma stopRequest_volume (s : SupState) : (stopRequest s).volume = s.volume := by
  unfold stopRequest; split <;> rfl

@[simp] lemma stopExitStep_volume (s : SupState) : (stopExitStep s).volume = s.volume := by
  unfold stopExitStep; split <;> rfl

@[simp] lemma stopEffects_volume (s : SupState) : (stopEffects s).volume = s.volume := by
  unfold stopEffects; simp

@[simp] lemma play_base_volume (s : SupState) :
    (if s.isPlaying then stopEffects s else s).volume = s.volume := by
  split <;> simp

/-- C10: a freshly constructed supervisor is idle with volume 70,
`isPlaying = false`, and station, start time and process handle all null; a
first `play` without a volume argument uses 70 as the default, spawning with
gain `volume=0.70`. -/
theorem c10_initial_state :
    initState.isPlaying = false ∧ initState.volume = 70 ∧
    initState.currentStation = none ∧ initState.startTime = none ∧
    initState.process = none ∧ initState.reconnectAttempts = 0 ∧
    (∀ st : Station, (play initState st none).volume = 70 ∧
      (play initState st none).spawnArgs = some (ffplayArgs 70 st)) ∧
    toFixed2 70 = "0.70" := by
  refine ⟨rfl, rfl, rfl, rfl, rfl, rfl, fun st => ⟨rfl, rfl⟩, ?_⟩
  decide

/-- C2 (code bug exhibit): the reconnect-attempt counter is reset to zero by
the spawn portion of every `play` call (`this.reconnectAttempts = 0`, line 50
of `StreamPlayer.ts`), for any prior counter value — i.e. on spawn, before any
confirmation — whereas the grace-period confirmation step never changes the
counter.  This contradicts the claim that the counter is reset only on the
confirmed `playing` transition. -/
theorem c2_counter_reset_on_spawn :
    (∀ (s : SupState) (st : Station) (v : Option Int),
      (play s st v).reconnectAttempts = 0) ∧
    (∀ s : SupState, (graceFire s).reconnectAttempts = s.reconnectAttempts) := by
  constructor
  · intro s st v; rfl
  · intro s
    unfold graceFire
    cases s.graceArmed with
    | none => rfl
    | some st =>
      dsimp only
      split <;> rfl

/-- C6: `setVolume(v)` with `v ∈ [0,100]` succeeds (`throws` nothing), stores
exactly `v`, emits no event and does not touch the process handle; with `v`
outside `[0,100]` it throws synchronously and returns the state completely
unchanged. -/
theorem c6_setVolume_contract :
    ∀ (s : SupState) (v : Int),
      (0 ≤ v → v ≤ 100 →
        (setVolume s v).1 = none ∧ (setVolume s v).2.volume = v ∧
        (setVolume s v).2.events = s.events ∧ (setVolume s v).2.process = s.process) ∧
      (v < 0 ∨ v > 100 → setVolume s v = (some VolError.outOfRange, s)) := by
  intro s v
  constructor
  · intro h0 h100
    have hng : ¬ (v < 0 ∨ v > 100) := by omega
    unfold setVolume
    rw [if_neg hng]
    dsimp only
    split <;> exact ⟨rfl, rfl, rfl, rfl⟩
  · intro h
    unfold setVolume
    rw [if_pos h]

/-- Witness for C6 at the concrete volumes 55 (in range) and 150 (out of
range). -/
theorem c6_setVolume_contract_witness :
    (setVolume initState 55).1 = none ∧ (setVolume initState 55).2.volume = 55 ∧
    setVolume initState 150 = (some VolError.outOfRange, initState) := by
  refine ⟨?_, ?_, ?_⟩
  · exact ((c6_setVolume_contract initState 55).1 (by decide) (by decide)).1
  · exact ((c6_setVolume_contract initState 55).1 (by decide) (by decide)).2.1
  · exact (c6_setVolume_contract initState 150).2 (by decide)

/-- C7 counterexample: `play(stA, 150)` from the initial state does NOT fail —
no validation exists in `play` — it spawns the process (handle 0) and records
the out-of-range volume 150, passing gain `volume=1.50` to `ffplay`. -/
theorem c7_out_of_range_counterexample :
    (play initState stA (some 150)).process = some 0 ∧
    (play initState stA (some 150)).volume = 150 ∧
    (play initState stA (some 150)).spawnArgs =
      some ["-nodisp", "-loglevel", "error", "-af", "volume=1.50", "-vn", stA.url] := by
  refine ⟨rfl, rfl, ?_⟩
  decide

/-- C7 amended: `play` performs no volume-range validation: for every volume
argument outside [0,100] it still spawns the external process, records the
out-of-range volume, and passes the corresponding gain argument; range
validation exists only in the CLI/REPL callers. -/
theorem c7_no_volume_validation (s : SupState) (st : Station) (v : Int)
    (h : v < 0 ∨ 100 < v) :
    (play s st (some v)).process.isSome = true ∧
    (play s st (some v)).volume = v ∧
    (play s st (some v)).spawnArgs = some (ffplayArgs v st) := by
  have hv0 : ¬ (v = 0) := by omega
  simp [play, playSpawn, jsOrVolume, hv0]

/-- Witness for the amended C7 at volume 150. -/
theorem c7_no_volume_validation_witness :
    (play initState stA (some 150)).process.isSome = true ∧
    (play initState stA (some 150)).volume = 150 ∧
    (play initState stA (some 150)).spawnArgs = some (ffplayArgs 150 stA) :=
  c7_no_volume_validation initState stA 150 (Or.inr (by decide))

/-- C8 counterexample: volume 0 is supplied and lies in [0,100], yet
`play(stA, 0)` records the stored last-known volume 70 (JS `volume ||
this.state.volume` treats 0 as falsy) and spawns with gain `volume=0.70`,
not 0. -/
theorem c8_zero_volume_counterexample :
    ((0 : Int) ≥ 0 ∧ (0 : Int) ≤ 100) ∧
    (play initState stA (some 0)).volume = 70 ∧
    ¬ (play initState stA (some 0)).volume = 0 ∧
    (play initState stA (some 0)).spawnArgs =
      some ["-nodisp", "-loglevel", "error", "-af", "volume=0.70", "-vn", stA.url] := by
  refine ⟨⟨by decide, by decide⟩, rfl, by decide, by decide⟩

/-- C8 amended: for a supplied volume in [1,100] the recorded volume and the
spawn gain are computed from the argument; the stored last-known volume is
used when the argument is omitted OR when it is 0 (which JS truthiness treats
as absent). -/
theorem c8_volume_defaulting :
    ∀ (s : SupState) (st : Station) (v : Int),
      (1 ≤ v → v ≤ 100 →
        (play s st (some v)).volume = v ∧
        (play s st (some v)).spawnArgs = some (ffplayArgs v st)) ∧
      (play s st none).volume = s.volume ∧
      (play s st (some 0)).volume = s.volume := by
  intro s st v
  refine ⟨?_, ?_, ?_⟩
  · intro h1 h100
    have hv0 : ¬ (v = 0) := by omega
    simp [play, playSpawn, jsOrVolume, hv0]
  · simp [play, playSpawn, jsOrVolume, play_base_volume]
  · simp [play, playSpawn, jsOrVolume, play_base_volume]

/-- Witness for the amended C8 at volume 55. -/
theorem c8_volume_defaulting_witness :
    (play initState stA (some 55)).volume = 55 ∧
    (play initState stA (some 55)).spawnArgs = some (ffplayArgs 55 stA) :=
  (c8_volume_defaulting initState stA 55).1 (by decide) (by decide)

end StreamPlayer

namespace StreamPlayer

/-- `true` exactly on `reconnecting` events. -/
def isReconnectingEv : Event → Bool
  | Event.reconnecting _ => true
  | _ => false

/-- `true` exactly on `connection_lost` events. -/
def isConnLostEv : Event → Bool
  | Event.connectionLost _ => true
  | _ => false

/-- A confirmed play: `play(stA)` followed by the grace period elapsing with
the process still alive (`playing` emitted, promise resolved). -/
def confirmedPlay : SupState := graceFire (play initState stA none)

/-- The `StreamError` produced by a non-ENOENT process error with message
`"boom"` on station `stA`. -/
def procErr : StreamErrorRec :=
  { code := ErrCode.PROCESS_ERROR, message := "boom", station := some stA }

/-- One failed (re)connection cycle: the spawned process fails with a
non-ENOENT process error, the (silent) grace timer of that attempt fires, and
then the scheduled reconnect timer fires, spawning the next attempt. -/
def failRound (s : SupState) : SupState :=
  reconnectFire (graceFire (procErrorOther s stA "boom"))

/-- The state after a confirmed play followed by six consecutive process
failures (five of them followed by their automatic reconnect attempt, the
sixth with its reconnect still pending). -/
def c1Final : SupState :=
  graceFire (procErrorOther (failRound^[5] confirmedPlay) stA "boom")

/-- C1 (code bug exhibit): after a confirmed play, six consecutive
(re)connection failures do NOT produce `reconnecting` events numbered 1..5
followed by one `connection_lost`.  Because `play` resets the attempt counter
to 0 at every spawn (line 50), each failure finds the counter at 0: the code
emits SIX `reconnecting` events, every one carrying attempt number 1, never
emits `connection_lost`, and schedules a seventh attempt (the reconnect timer
is still armed), so the machinery never stops. -/
theorem c1_reconnect_unbounded :
    c1Final.events =
      [Event.playing stA,
       Event.error procErr, Event.reconnecting 1,
       Event.error procErr, Event.reconnecting 1,
       Event.error procErr, Event.reconnecting 1,
       Event.error procErr, Event.reconnecting 1,
       Event.error procErr, Event.reconnecting 1,
       Event.error procErr, Event.reconnecting 1] ∧
    (c1Final.events.filter isReconnectingEv).length = 6 ∧
    c1Final.events.filter isConnLostEv = [] ∧
    c1Final.reconnectTimer = some stA ∧
    c1Final.isPlaying = false := by
  refine ⟨by decide, by decide, by decide, by decide, by decide⟩

end StreamPlayer

namespace StreamPlayer

/-- Confirmed play, then a fatal stderr stream error: one reconnect attempt is
scheduled (`reconnecting 1` emitted). -/
def c4AfterStreamError : SupState :=
  stderrData confirmedPlay stA "https://stream.example/lofi: Invalid data found when processing input"

/-- The scheduled reconnect fires: the previous process is stopped and a new
one is spawned for the attempt. -/
def c4ReconnectSpawned : SupState := reconnectFire c4AfterStreamError

/-- The spawned reconnect attempt hits ENOENT (the player binary is missing):
`play`'s promise rejects with the binary-not-found error. -/
def c4EnoentRejected : SupState := procErrorENOENT c4ReconnectSpawned

/-- The `catch` of the awaited reconnect `play` runs: the binary-not-found
rejection is wrapped as `RECONNECT_FAILED` and re-enters
`handleStreamError`. -/
def c4AfterCatch : SupState := reconnectCatch c4EnoentRejected stA

/-- C4 counterexample: a binary-not-found (ENOENT) failure CAN cause a
`reconnecting` event and increment the reconnect counter.  When the missing
binary is detected during a scheduled reconnect attempt, the rejected `play`
promise is caught (lines 187–193) and fed back into `handleStreamError` as
`RECONNECT_FAILED`, which emits another `reconnecting` event and increments
the counter — the reconnect machinery is not short-circuited. -/
theorem c4_reconnect_enoent_counterexample :
    c4EnoentRejected.playResult = some PlayOutcome.rejectedNoBinary ∧
    (c4EnoentRejected.events.filter isReconnectingEv).length = 1 ∧
    (c4AfterCatch.events.filter isReconnectingEv).length = 2 ∧
    c4EnoentRejected.reconnectAttempts = 0 ∧
    c4AfterCatch.reconnectAttempts = 1 ∧
    c4AfterCatch.reconnectTimer = some stA := by
  refine ⟨by decide, by decide, by decide, by decide, by decide, by decide⟩

/-- C4 amended: the ENOENT branch of the process `error` handler itself
(lines 63–66) rejects the pending `play` promise with the distinct
binary-not-found error, emits no event at all (in particular no
`reconnecting`), leaves the reconnect counter untouched and clears
`isPlaying`; however, when the rejected `play` was a scheduled reconnect
attempt, the surrounding `catch` re-enters `handleStreamError` as
`RECONNECT_FAILED`, emitting `error` plus `reconnecting` and incrementing the
counter whenever attempts remain. -/
theorem c4_enoent_amended (s : SupState)
    (hp : s.process.isSome = true) (hd : s.detached = false) :
    (procErrorENOENT s).events = s.events ∧
    (procErrorENOENT s).reconnectAttempts = s.reconnectAttempts ∧
    (procErrorENOENT s).isPlaying = false ∧
    (s.playResult = none →
      (procErrorENOENT s).playResult = some PlayOutcome.rejectedNoBinary) ∧
    (∀ st : Station, s.reconnectAttempts < maxReconnectAttempts →
      (reconnectCatch s st).reconnectAttempts = s.reconnectAttempts + 1 ∧
      (reconnectCatch s st).events = s.events ++
        [Event.error
          { code := ErrCode.RECONNECT_FAILED
            message := "Reconnection attempt " ++ toString s.reconnectAttempts ++ " failed"
            station := some st },
         Event.reconnecting (s.reconnectAttempts + 1)]) := by
  have hguard : (s.process.isSome && !s.detached) = true := by
    simp [hp, hd]
  refine ⟨?_, ?_, ?_, ?_, ?_⟩
  · simp [procErrorENOENT, hguard]
  · simp [procErrorENOENT, hguard]
  · simp [procErrorENOENT, hguard]
  · intro hr
    simp [procErrorENOENT, hguard, hr, Option.orElse]
  · intro st hlt
    have hcond :
        ((emit s (Event.error
          { code := ErrCode.RECONNECT_FAILED
            message := "Reconnection attempt " ++ toString s.reconnectAttempts ++ " failed"
            station := some st })).reconnectAttempts < maxReconnectAttempts &&
          (some st).isSome) = true := by
      simp [emit, hlt]
    constructor
    · simp [reconnectCatch, handleStreamError, hcond, emit, hlt]
    · simp [reconnectCatch, handleStreamError, hcond, emit, hlt]

/-- Witness for the amended C4 at the concrete reconnect-attempt state of the
counterexample trace. -/
theorem c4_enoent_amended_witness :
    (procErrorENOENT c4ReconnectSpawned).events = c4ReconnectSpawned.events ∧
    (procErrorENOENT c4ReconnectSpawned).reconnectAttempts =
      c4ReconnectSpawned.reconnectAttempts ∧
    (procErrorENOENT c4ReconnectSpawned).isPlaying = false := by
  have h := c4_enoent_amended c4ReconnectSpawned (by decide) (by decide)
  exact ⟨h.1, h.2.1, h.2.2.1⟩

end StreamPlayer

namespace StreamPlayer

/-- The state right after `play(stA)` from the initial state: process spawned,
grace timer armed, promise pending. -/
def graceStart : SupState := play initState stA none

/-- Failures that the installed handlers can observe during the 1000 ms grace
period of a `play` call: a fatal stderr pattern match, an ENOENT process
error, a non-ENOENT process error, or a process exit with the given code. -/
inductive GraceEv where
  | stderrFatalData
  | errENOENT
  | errOther
  | exitCode (c : Option Int)
deriving DecidableEq, Repr

/-- Run one grace-period failure through the corresponding handler. -/
def stepG (s : SupState) : GraceEv → SupState
  | GraceEv.stderrFatalData =>
      stderrData s stA "https://stream.example/lofi: Invalid data found when processing input"
  | GraceEv.errENOENT => procErrorENOENT s
  | GraceEv.errOther => procErrorOther s stA "boom"
  | GraceEv.exitCode c => procExitStep s stA c

/-- Run a list of grace-period failures and then let the grace timeout fire. -/
def runGrace (evs : List GraceEv) : SupState :=
  graceFire (evs.foldl stepG graceStart)

/-- Bookkeeping invariant along the grace period: the promise is pending or
rejected (it can only resolve at the timeout), a rejected promise implies
`isPlaying` was cleared, and the grace timer is still armed. -/
def GraceInv (s : SupState) : Prop :=
  (s.playResult = none ∨ s.playResult = some PlayOutcome.rejectedNoBinary) ∧
  (s.playResult = some PlayOutcome.rejectedNoBinary → s.isPlaying = false) ∧
  s.graceArmed = some stA

lemma graceInv_start : GraceInv graceStart := by
  refine ⟨Or.inl rfl, ?_, rfl⟩
  intro h
  simp [graceStart, play, playSpawn, initState] at h

lemma emit_playResult (s : SupState) (e : Event) : (emit s e).playResult = s.playResult := rfl

lemma hse_playResult (s : SupState) (err : StreamErrorRec) :
    (handleStreamError s err).playResult = s.playResult := by
  unfold handleStreamError
  dsimp only
  split
  · rfl
  · unfold stopEffects stopExitStep stopRequest
    split <;> split <;> rfl

lemma hse_graceArmed (s : SupState) (err : StreamErrorRec) :
    (handleStreamError s err).graceArmed = s.graceArmed := by
  unfold handleStreamError
  dsimp only
  split
  · rfl
  · unfold stopEffects stopExitStep stopRequest
    split <;> split <;> rfl

lemma stopRequest_playResult (s : SupState) :
    (stopRequest s).playResult = s.playResult := by
  unfold stopRequest; split <;> rfl

lemma stopExitStep_playResult (s : SupState) :
    (stopExitStep s).playResult = s.playResult := by
  unfold stopExitStep; split <;> rfl

lemma stopEffects_playResult (s : SupState) :
    (stopEffects s).playResult = s.playResult := by
  unfold stopEffects
  rw [stopExitStep_playResult, stopRequest_playResult]

lemma stopExitStep_isPlaying (s : SupState) :
    (stopExitStep s).isPlaying = s.isPlaying := by
  unfold stopExitStep; split <;> rfl

lemma stopEffects_isPlaying_mono (s : SupState) (h : s.isPlaying = false) :
    (stopEffects s).isPlaying = false := by
  unfold stopEffects
  rw [stopExitStep_isPlaying]
  unfold stopRequest
  split
  · rfl
  · exact h

lemma hse_isPlaying_mono (s : SupState) (err : StreamErrorRec) (h : s.isPlaying = false) :
    (handleStreamError s err).isPlaying = false := by
  unfold handleStreamError
  dsimp only
  split
  · exact h
  · exact stopEffects_isPlaying_mono _ (by simpa [emit] using h)

lemma graceInv_stderrData (s : SupState) (st : Station) (m : String) (h : GraceInv s) :
    GraceInv (stderrData s st m) := by
  obtain ⟨h1, h2, h3⟩ := h
  unfold stderrData
  split
  · split
    · refine ⟨?_, ?_, ?_⟩
      · rw [hse_playResult]; exact h1
      · intro hr
        rw [hse_playResult] at hr
        exact hse_isPlaying_mono _ _ (h2 hr)
      · rw [hse_graceArmed]; exact h3
    · exact ⟨h1, h2, h3⟩
  · exact ⟨h1, h2, h3⟩

lemma graceInv_procErrorENOENT (s : SupState) (h : GraceInv s) :
    GraceInv (procErrorENOENT s) := by
  obtain ⟨h1, h2, h3⟩ := h
  unfold procErrorENOENT
  split
  · refine ⟨?_, fun _ => rfl, h3⟩
    rcases h1 with h1 | h1 <;> simp [h1, Option.orElse]
  · exact ⟨h1, h2, h3⟩

lemma graceInv_procErrorOther (s : SupState) (st : Station) (m : String) (h : GraceInv s) :
    GraceInv (procErrorOther s st m) := by
  obtain ⟨h1, h2, h3⟩ := h
  unfold procErrorOther
  split
  · refine ⟨?_, ?_, ?_⟩
    · rw [hse_playResult]; exact h1
    · intro _
      exact hse_isPlaying_mono _ _ rfl
    · rw [hse_graceArmed]; exact h3
  · exact ⟨h1, h2, h3⟩

lemma graceInv_procExitStep (s : SupState) (st : Station) (c : Option Int) (h : GraceInv s) :
    GraceInv (procExitStep s st c) := by
  obtain ⟨h1, h2, h3⟩ := h
  unfold procExitStep
  split
  · dsimp only
    refine ⟨?_, fun _ => rfl, ?_⟩
    · split
      · rw [hse_playResult]; exact h1
      · exact h1
    · split
      · rw [hse_graceArmed]; exact h3
      · exact h3
  · exact ⟨h1, h2, h3⟩

lemma graceInv_step (s : SupState) (ev : GraceEv) (h : GraceInv s) :
    GraceInv (stepG s ev) := by
  cases ev with
  | stderrFatalData => exact graceInv_stderrData s _ _ h
  | errENOENT => exact graceInv_procErrorENOENT s h
  | errOther => exact graceInv_procErrorOther s _ _ h
  | exitCode c => exact graceInv_procExitStep s _ c h

lemma graceInv_fold (evs : List GraceEv) : GraceInv (evs.foldl stepG graceStart) := by
  suffices h : ∀ s, GraceInv s → GraceInv (evs.foldl stepG s) from h _ graceInv_start
  induction evs with
  | nil => intro s hs; exact hs
  | cons e t ih => intro s hs; exact ih _ (graceInv_step s e hs)

end StreamPlayer

namespace StreamPlayer

/-- C3 counterexample: a failure during the grace period does NOT always fail
the `play` call via the error path.  If the spawned process raises a
non-ENOENT `error` during the grace period, the handler clears `isPlaying` and
routes the failure into the reconnect machinery without rejecting; the grace
timeout then fires, finds `isPlaying == false`, and simply does not resolve.
The `play` promise is neither resolved nor rejected — it never settles. -/
theorem c3_process_error_promise_pending :
    (runGrace [GraceEv.errOther]).playResult = none ∧
    (runGrace [GraceEv.errOther]).graceArmed = none ∧
    (runGrace [GraceEv.errOther]).isPlaying = false := by
  refine ⟨by decide, by decide, by decide⟩

/-- C3 amended: the promise of `play` resolves successfully at grace-period
expiry exactly when the supervisor is still marked playing at that moment; it
rejects (with the binary-not-found error) when an ENOENT process error fires
during the grace period; when a non-ENOENT process error fires during the
grace period it never settles; and a fatal stderr stream error during the
grace period does not fail the call — `play` still resolves at the timeout
even though reconnection has already been scheduled (`reconnecting 1` was
emitted before the promise resolved). -/
theorem c3_play_settlement :
    (∀ evs : List GraceEv,
      (runGrace evs).playResult = some PlayOutcome.resolved ↔
        (evs.foldl stepG graceStart).isPlaying = true) ∧
    (runGrace []).playResult = some PlayOutcome.resolved ∧
    (runGrace [GraceEv.errENOENT]).playResult = some PlayOutcome.rejectedNoBinary ∧
    (runGrace [GraceEv.errOther]).playResult = none ∧
    (runGrace [GraceEv.stderrFatalData]).playResult = some PlayOutcome.resolved ∧
    Event.reconnecting 1 ∈ (runGrace [GraceEv.stderrFatalData]).events := by
  refine ⟨?_, by decide, by decide, by decide, by decide, by decide⟩
  intro evs
  obtain ⟨h1, h2, h3⟩ := graceInv_fold evs
  unfold runGrace graceFire
  rw [h3]
  dsimp only
  cases hp : (List.foldl stepG graceStart evs).isPlaying with
  | false =>
    have hne : ¬ ((List.foldl stepG graceStart evs).playResult = some PlayOutcome.resolved) := by
      rcases h1 with h1 | h1 <;> simp [h1]
    simp [hne]
  | true =>
    have hnone : (List.foldl stepG graceStart evs).playResult = none := by
      rcases h1 with h1 | h1
      · exact h1
      · have hfalse := h2 h1
        rw [hp] at hfalse
        exact absurd hfalse (by decide)
    simp [emit, hnone, Option.orElse]

end StreamPlayer

namespace StreamPlayer

/-- The part of the claimed `PlaybackState` invariant that the code actually
maintains, plus the auxiliary fact needed for the induction: once `stop` has
detached the listeners of the current process, the supervisor is no longer
marked playing. -/
def Inv (s : SupState) : Prop :=
  (s.isPlaying = true → s.process ≠ none ∧ s.currentStation ≠ none ∧ s.startTime ≠ none) ∧
  (s.detached = true → s.isPlaying = false)

lemma inv_playSpawn (s : SupState) (st : Station) (v : Option Int) :
    Inv (playSpawn s st v) := by
  exact ⟨fun _ => ⟨by simp [playSpawn], by simp [playSpawn], by simp [playSpawn]⟩,
    fun hd => Bool.noConfusion hd⟩

lemma inv_play (s : SupState) (st : Station) (v : Option Int) :
    Inv (play s st v) :=
  inv_playSpawn _ st v

lemma inv_stopRequest (s : SupState) (h : Inv s) : Inv (stopRequest s) := by
  unfold stopRequest
  split
  · exact ⟨fun hp => Bool.noConfusion hp, fun _ => rfl⟩
  · exact h

lemma inv_stopExitStep (s : SupState) (h : Inv s) : Inv (stopExitStep s) := by
  unfold stopExitStep
  split
  · rename_i hg
    have hd : s.detached = true := by
      revert hg
      cases s.detached <;> simp
    have hip : s.isPlaying = false := h.2 hd
    refine ⟨fun hp => ?_, fun _ => hip⟩
    have : s.isPlaying = true := hp
    rw [hip] at this
    exact Bool.noConfusion this
  · exact h

lemma inv_stopEffects (s : SupState) (h : Inv s) : Inv (stopEffects s) :=
  inv_stopExitStep _ (inv_stopRequest _ h)

lemma inv_hse (s : SupState) (err : StreamErrorRec) (h : Inv s) :
    Inv (handleStreamError s err) := by
  unfold handleStreamError
  dsimp only
  split
  · exact ⟨fun hp => h.1 hp, fun hd => h.2 hd⟩
  · exact inv_stopEffects _ h

lemma inv_stderrData (s : SupState) (st : Station) (m : String) (h : Inv s) :
    Inv (stderrData s st m) := by
  unfold stderrData
  split
  · split
    · exact inv_hse _ _ h
    · exact h
  · exact h

lemma inv_procErrorENOENT (s : SupState) (h : Inv s) : Inv (procErrorENOENT s) := by
  unfold procErrorENOENT
  split
  · exact ⟨fun hp => Bool.noConfusion hp, fun _ => rfl⟩
  · exact h

lemma inv_procErrorOther (s : SupState) (st : Station) (m : String) (h : Inv s) :
    Inv (procErrorOther s st m) := by
  unfold procErrorOther
  split
  · exact inv_hse _ _ ⟨fun hp => Bool.noConfusion hp, fun _ => rfl⟩
  · exact h

lemma inv_procExitStep (s : SupState) (st : Station) (c : Option Int) (h : Inv s) :
    Inv (procExitStep s st c) := by
  unfold procExitStep
  split
  · exact ⟨fun hp => Bool.noConfusion hp, fun _ => rfl⟩
  · exact h

lemma inv_graceFire (s : SupState) (h : Inv s) : Inv (graceFire s) := by
  unfold graceFire
  cases hg : s.graceArmed with
  | none => exact h
  | some st =>
    dsimp only
    split
    · exact ⟨fun hp => h.1 hp, fun hd => h.2 hd⟩
    · exact ⟨fun hp => h.1 hp, fun hd => h.2 hd⟩

lemma inv_reconnectFire (s : SupState) (h : Inv s) : Inv (reconnectFire s) := by
  unfold reconnectFire
  cases hg : s.reconnectTimer with
  | none => exact h
  | some st => exact inv_play _ st _

lemma inv_setVolume (s : SupState) (v : Int) (h : Inv s) : Inv (setVolume s v).2 := by
  unfold setVolume
  split
  · exact h
  · dsimp only
    split
    · exact ⟨fun hp => h.1 hp, fun hd => h.2 hd⟩
    · exact ⟨fun hp => h.1 hp, fun hd => h.2 hd⟩

lemma inv_restartFire (s : SupState) (h : Inv s) : Inv (restartFire s) := by
  unfold restartFire
  cases hg : s.volumeRestart with
  | none => exact h
  | some p => exact inv_play _ p.1 _

/-- All supervisor states reachable from the freshly constructed player by any
interleaving of caller operations (`play`, `setVolume` and the restart it
schedules, `stop`'s two phases) and asynchronous handler/timer firings
(stderr data, process errors, process exit, grace timeout, reconnect timer,
reconnect-failure catch). -/
inductive Reachable : SupState → Prop where
  | init : Reachable initState
  | stepPlay (s : SupState) (st : Station) (v : Option Int) :
      Reachable s → Reachable (play s st v)
  | stepStderr (s : SupState) (st : Station) (m : String) :
      Reachable s → Reachable (stderrData s st m)
  | stepErrENOENT (s : SupState) : Reachable s → Reachable (procErrorENOENT s)
  | stepErrOther (s : SupState) (st : Station) (m : String) :
      Reachable s → Reachable (procErrorOther s st m)
  | stepExit (s : SupState) (st : Station) (c : Option Int) :
      Reachable s → Reachable (procExitStep s st c)
  | stepGrace (s : SupState) : Reachable s → Reachable (graceFire s)
  | stepReconnect (s : SupState) : Reachable s → Reachable (reconnectFire s)
  | stepReconnectCatch (s : SupState) (st : Station) :
      Reachable s → Reachable (reconnectCatch s st)
  | stepStopRequest (s : SupState) : Reachable s → Reachable (stopRequest s)
  | stepStopExit (s : SupState) : Reachable s → Reachable (stopExitStep s)
  | stepSetVolume (s : SupState) (v : Int) : Reachable s → Reachable (setVolume s v).2
  | stepRestart (s : SupState) : Reachable s → Reachable (restartFire s)

/-- A reachable state violating the claimed invariant twice over: play with
volume 150 (unvalidated), confirm, then the process exits cleanly.  The
resulting state has `volume = 150 ∉ [0,100]`, and `startTime` (and
`currentStation`) still set while `isPlaying` is `false` — refuting both the
volume bound and the `startTime` iff. -/
def c5Bad : SupState := procExitStep (graceFire (play initState stA (some 150))) stA (some 0)

/-- C5 counterexample: `c5Bad` is reachable, its volume is 150 (outside
[0,100]), and it has `isPlaying = false` with `startTime` non-null, so the
claimed invariant (`startTime` non-null iff `isPlaying`, volume always in
[0,100]) fails on the code. -/
theorem c5_invariant_counterexample :
    Reachable c5Bad ∧ c5Bad.volume = 150 ∧ ¬ (c5Bad.volume ≤ 100) ∧
    c5Bad.isPlaying = false ∧ c5Bad.startTime = some 0 ∧
    c5Bad.currentStation = some stA := by
  refine ⟨?_, by decide, by decide, by decide, by decide, by decide⟩
  exact Reachable.stepExit _ stA (some 0)
    (Reachable.stepGrace _ (Reachable.stepPlay _ stA (some 150) Reachable.init))

/-- C5 amended: in every reachable supervisor state, `isPlaying == true` does
imply that the process handle, `currentStation` and `startTime` are all
non-null.  (The two other parts of the claimed invariant fail on the code:
`startTime` non-null does not imply `isPlaying` — see the counterexample —
and the volume can leave [0,100] because `play` never validates it.) -/
lemma reachable_inv (s : SupState) (h : Reachable s) : Inv s := by
  induction h with
  | init => exact ⟨fun hq => Bool.noConfusion hq, fun _ => rfl⟩
  | stepPlay s st v _ _ => exact inv_play s st v
  | stepStderr s st m _ ih => exact inv_stderrData s st m ih
  | stepErrENOENT s _ ih => exact inv_procErrorENOENT s ih
  | stepErrOther s st m _ ih => exact inv_procErrorOther s st m ih
  | stepExit s st c _ ih => exact inv_procExitStep s st c ih
  | stepGrace s _ ih => exact inv_graceFire s ih
  | stepReconnect s _ ih => exact inv_reconnectFire s ih
  | stepReconnectCatch s st _ ih => exact inv_hse s _ ih
  | stepStopRequest s _ ih => exact inv_stopRequest s ih
  | stepStopExit s _ ih => exact inv_stopExitStep s ih
  | stepSetVolume s v _ ih => exact inv_setVolume s v ih
  | stepRestart s _ ih => exact inv_restartFire s ih

theorem c5_playing_invariant (s : SupState) (h : Reachable s)
    (hp : s.isPlaying = true) :
    s.process ≠ none ∧ s.currentStation ≠ none ∧ s.startTime ≠ none :=
  (reachable_inv s h).1 hp

/-- Witness for the amended C5 at the concrete playing state reached by a
single `play` from the initial state. -/
theorem c5_playing_invariant_witness :
    (play initState stA none).process ≠ none ∧
    (play initState stA none).currentStation ≠ none ∧
    (play initState stA none).startTime ≠ none :=
  c5_playing_invariant _ (Reachable.stepPlay _ stA none Reachable.init) rfl

end StreamPlayer

namespace StreamPlayer

/-!
Reference model for `getState()` (lines 152–154): `return { ...this.state }`
builds a NEW top-level object whose field values are copied — but in
JavaScript the copied values of `process` and `startTime` are object
REFERENCES, and the `ChildProcess` and `Date` objects they point to are
mutable.  We model object identity with explicit reference indices into a
store, so that sharing of mutable substructure is expressible.
-/

/-- The mutable part of a `ChildProcess` object that a caller can reach
through a leaked reference (e.g. by calling `.kill()` or
`.removeAllListeners()` on it). -/
structure ProcObj where
  killed : Bool
  listenersRemoved : Bool
deriving DecidableEq, Repr

/-- A store mapping process-object references to their current mutable
state. -/
def ProcHeap : Type := Nat → ProcObj

/-- The field values of a `PlayerState` record as JavaScript sees them:
primitives are values, `process` and `startTime` are references into the
heap of mutable objects. -/
structure StateObj where
  isPlaying : Bool
  currentStation : Option Station
  volume : Int
  startTimeRef : Option Nat
  processRef : Option Nat
deriving DecidableEq, Repr

/-- `getState()`: the object spread `{ ...this.state }` — a fresh top-level
record holding the same field values, including the same `process` and
`startTime` references (a shallow copy). -/
def getStateCopy (s : StateObj) : StateObj :=
  { isPlaying := s.isPlaying
    currentStation := s.currentStation
    volume := s.volume
    startTimeRef := s.startTimeRef
    processRef := s.processRef }

/-- Mutation performed through a possibly-null process reference: calling
`.kill()` on the object it denotes. -/
def killRef (h : ProcHeap) (r : Option Nat) : ProcHeap :=
  match r with
  | none => h
  | some i => fun j => if j = i then { h j with killed := true } else h j

/-- Dereference a possibly-null process reference. -/
def readRef (h : ProcHeap) (r : Option Nat) : Option ProcObj :=
  r.map h

/-- A concrete heap with one live (unkilled) process object at reference 0. -/
def heap0 : ProcHeap := fun _ => { killed := false, listenersRemoved := false }

/-- A concrete internal `PlayerState` during playback: the supervisor's
process reference points at object 0. -/
def sInternal : StateObj :=
  { isPlaying := true
    currentStation := some stA
    volume := 70
    startTimeRef := some 0
    processRef := some 0 }

/-- C9 counterexample: the snapshot returned by `getState` aliases the
supervisor's mutable substructure.  The copy's `process` reference is the very
reference held internally, so killing the process through the snapshot
(`getState().process.kill()`) changes the object the supervisor's own
`processRef` points at — from alive to killed. -/
theorem c9_aliasing_counterexample :
    (getStateCopy sInternal).processRef = sInternal.processRef ∧
    readRef heap0 sInternal.processRef =
      some { killed := false, listenersRemoved := false } ∧
    readRef (killRef heap0 (getStateCopy sInternal).processRef) sInternal.processRef =
      some { killed := true, listenersRemoved := false } := by
  refine ⟨rfl, rfl, by decide⟩

/-- C9 amended: `getState` is a shallow copy.  The returned record is a fresh
top-level value equal to the internal state field-for-field — in particular
its `process` and `startTime` fields hold the SAME references as the internal
state, so any mutation applied through the snapshot's references is exactly a
mutation of the objects the internal state references. -/
theorem c9_shallow_copy (s : StateObj) :
    getStateCopy s = s ∧
    (getStateCopy s).processRef = s.processRef ∧
    (getStateCopy s).startTimeRef = s.startTimeRef ∧
    (∀ h : ProcHeap, killRef h (getStateCopy s).processRef = killRef h s.processRef) :=
  ⟨rfl, rfl, rfl, fun _ => rfl⟩

end StreamPlayer
